import Mathlib

set_option linter.unusedVariables false

/-!
Verification of the request-logs-service repository.

The development shallowly embeds the two modules the claims are about:

* src/src/persistence.js — the dual-backend storage driver (initDb /
  insertLog) together with the POST /log ingestion handler that builds the
  persisted record from a JSON body; and
* src/unnamed/part_000 (the backup module, src/backup.js per the usage
  guide) — backupPostgres, backupMongo, uploadAndRetain, pruneLocal and the
  orchestrator runBackup.

JavaScript values reaching these functions are JSON values plus Date
objects; they are modelled by the inductive type JsValue below, together
with executable models of the JavaScript operations the source uses:
truthiness, property access, optional chaining, and the x-or-y default
idiom.  File-system and object-store state is modelled explicitly as lists
of named entries with modification times, and the external processes the
backup module shells out to are modelled by their exit codes, passed in as
a scenario record.
-/

/-- A JavaScript value as it appears in this service: the JSON values plus
Date objects (the server timestamp). -/
inductive JsValue where
  | null
  | bool (b : Bool)
  | num (n : Int)
  | str (s : String)
  | date (t : Int)
  | obj (fields : List (String × JsValue))
  | arr (elems : List JsValue)

/-- JavaScript truthiness of a value. null, false, 0 and the empty string
are falsy; every object (including Date and array) is truthy. -/
def truthy : JsValue → Bool
  | .null => false
  | .bool b => b
  | .num n => n != 0
  | .str s => s != ""
  | .date _ => true
  | .obj _ => true
  | .arr _ => true

/-- Association lookup in an object literal field list (JSON object keys
are unique; the first match is taken). -/
def lookupField : List (String × JsValue) → String → Option JsValue
  | [], _ => none
  | (k, v) :: t, key => if k = key then some v else lookupField t key

/-- JavaScript property access payload.key: a present key yields its
value, anything else (absent key, or access on a non-object) yields
undefined, modelled as none. -/
def getField : JsValue → String → Option JsValue
  | .obj fs, key => lookupField fs key
  | _, _ => none

/-- Truthiness of a possibly-undefined value: undefined is falsy. -/
def truthyOpt : Option JsValue → Bool
  | none => false
  | some v => truthy v

/-- The JavaScript default idiom a || b: a when a is defined and truthy,
otherwise b. -/
def jsOr (a : Option JsValue) (b : JsValue) : JsValue :=
  match a with
  | some v => if truthy v then v else b
  | none => b

/-- Optional chaining a?.key: short-circuits to undefined when a is
undefined or null, otherwise accesses the property. -/
def optChain (a : Option JsValue) (key : String) : Option JsValue :=
  match a with
  | none => none
  | some .null => none
  | some v => getField v key

/-- JavaScript typeof v === 'object'.  Objects, arrays and null all have
typeof 'object'; strings, numbers and booleans do not.  (Date values are
objects.) -/
def typeofIsObject : JsValue → Bool
  | .obj _ => true
  | .arr _ => true
  | .null => true
  | .date _ => true
  | _ => false

/-- Whether a value is an object carrying the given key. -/
def hasKey (v : JsValue) (k : String) : Bool :=
  (getField v k).isSome

/-- The payload classification of the POST /log handler
(src/src/persistence.js, ingestion adapter lines 92-94): a body is treated
as structured when it is of object type and any of the six listed
properties is truthy. -/
def isStructured (payload : JsValue) : Bool :=
  typeofIsObject payload &&
    (truthyOpt (getField payload "event") || truthyOpt (getField payload "entity") ||
     truthyOpt (getField payload "request") || truthyOpt (getField payload "response") ||
     truthyOpt (getField payload "metadata") || truthyOpt (getField payload "actor"))

/-- The six keys the classifier inspects. -/
def structuredKeys : List String :=
  ["event", "entity", "request", "response", "metadata", "actor"]

/-- The record construction of the POST /log handler (lines 96-125): on a
structured payload the structured fields are copied with || null defaults
and the legacy compatibility fields are derived through optional chaining;
on a legacy payload the five flat fields are copied with || null defaults.
In both branches ts is the server clock reading (new Date()), and the
client payload is never consulted for it. -/
def buildDoc (now : Int) (payload : JsValue) : List (String × JsValue) :=
  if isStructured payload then
    [("ts", .date now),
     ("event", jsOr (getField payload "event") .null),
     ("entity", jsOr (getField payload "entity") .null),
     ("entityId", jsOr (getField payload "entityId") .null),
     ("actor", jsOr (getField payload "actor") .null),
     ("request", jsOr (getField payload "request") .null),
     ("response", jsOr (getField payload "response") .null),
     ("metadata", jsOr (getField payload "metadata") .null),
     ("apiUrl", jsOr (optChain (getField payload "request") "path") .null),
     ("headers", jsOr (optChain (getField payload "request") "headers") .null),
     ("requestBody", jsOr (optChain (getField payload "request") "body") .null),
     ("responseBody", jsOr (optChain (getField payload "response") "body") .null),
     ("userId", jsOr (optChain (getField payload "actor") "id") .null)]
  else
    [("ts", .date now),
     ("apiUrl", jsOr (getField payload "apiUrl") .null),
     ("headers", jsOr (getField payload "headers") .null),
     ("requestBody", jsOr (getField payload "requestBody") .null),
     ("responseBody", jsOr (getField payload "responseBody") .null),
     ("userId", jsOr (getField payload "userId") .null)]

/-- Property access on the constructed record. -/
def docGet (doc : List (String × JsValue)) (k : String) : Option JsValue :=
  lookupField doc k

/-- The relational row written by insertLog (src/src/persistence.js lines
66-75): thirteen named columns.  The first six parameters are the record
properties passed through directly (an absent property is undefined, which
the pg driver sends as null, hence getD .null); the last seven are
defensively defaulted in the source with || null. -/
def pgRowOf (doc : List (String × JsValue)) : List (String × JsValue) :=
  [("ts", (docGet doc "ts").getD .null),
   ("api_url", (docGet doc "apiUrl").getD .null),
   ("headers", (docGet doc "headers").getD .null),
   ("request_body", (docGet doc "requestBody").getD .null),
   ("response_body", (docGet doc "responseBody").getD .null),
   ("user_id", (docGet doc "userId").getD .null),
   ("event", jsOr (docGet doc "event") .null),
   ("entity", jsOr (docGet doc "entity") .null),
   ("entity_id", jsOr (docGet doc "entityId") .null),
   ("actor", jsOr (docGet doc "actor") .null),
   ("request", jsOr (docGet doc "request") .null),
   ("response", jsOr (docGet doc "response") .null),
   ("metadata", jsOr (docGet doc "metadata") .null)]

/-- Lookup of a column in a row. -/
def rowGet (row : List (String × JsValue)) (c : String) : Option JsValue :=
  lookupField row c

/-- Whether insertLog rejects, as a function of the driver string, the
readiness flag and the failure scenario (src/src/persistence.js lines
61-77).  When not ready, a failing lazy initDb rejects in either mode.
The mongo branch returns the insertOne promise with no catch attached, so
an insertOne rejection propagates to the caller; the postgres branch
attaches .catch (line 75, with the comment: swallow; requirement: never
throw), so a query rejection never propagates — pgQueryFails is
deliberately ignored by the definition, mirroring that catch. -/
def insertLogRaises (driverStr : String) (ready initFails mongoInsertFails pgQueryFails : Bool) :
    Bool :=
  if !ready && initFails then true
  else if driverStr == "mongo" || driverStr == "mongodb" then mongoInsertFails
  else false

/-- The document stored by the mongo branch of insertLog: insertOne
receives the constructed record verbatim, so exactly the keys present on
the record are present on the stored document. -/
def mongoStoredDoc (doc : List (String × JsValue)) : List (String × JsValue) :=
  doc


/-!
String helpers.  The backup module uses regular expressions and string
methods; they are modelled over the character list of a String so that all
tests are executable by kernel reduction.
-/

/-- Whether the first character list is an initial segment of the second. -/
def listStarts : List Char → List Char → Bool
  | [], _ => true
  | _ :: _, [] => false
  | p :: ps, c :: cs => p == c && listStarts ps cs

/-- s.startsWith pre. -/
def strStarts (s pre : String) : Bool :=
  listStarts pre.data s.data

/-- The end-anchored test of a suffix: the regex of the local sweeper
filter is suffix-anchored with a dollar sign. -/
def strEnds (s suf : String) : Bool :=
  listStarts suf.data.reverse s.data.reverse

/-- Whether pat occurs as a contiguous substring. -/
def listHasSub (pat : List Char) : List Char → Bool
  | [] => pat.isEmpty
  | c :: cs => listStarts pat (c :: cs) || listHasSub pat cs

/-- Unanchored regex test for a literal pattern, as in the remote
retention filter pg-|mongo-. -/
def strHasSub (s pat : String) : Bool :=
  listHasSub pat.data s.data

/-- Lower-casing of ASCII letters, as String.prototype.toLowerCase acts on
the driver names used here. -/
def lcChar (c : Char) : Char :=
  if 'A' ≤ c && c ≤ 'Z' then Char.ofNat (c.toNat + 32) else c

/-- s.toLowerCase() for the ASCII driver strings of this service. -/
def jsToLower (s : String) : String :=
  ⟨s.data.map lcChar⟩

/-- The JavaScript default idiom s || d on environment strings: an unset
variable (undefined) and the empty string are falsy and give the default. -/
def envOrDefault (v : Option String) (d : String) : String :=
  match v with
  | none => d
  | some s => if s = "" then d else s

/-- Whether an environment string is set and truthy (non-empty). -/
def envSet (v : Option String) : Bool :=
  match v with
  | none => false
  | some s => s != ""

/-- Numeric value of a digit string, none when any character is not a
decimal digit. -/
def digitsValAux : List Char → Nat → Option Nat
  | [], acc => some acc
  | c :: cs, acc =>
    if '0' ≤ c && c ≤ '9' then digitsValAux cs (acc * 10 + (c.toNat - 48))
    else none

/-- Value of a non-empty digit run. -/
def digitsVal : List Char → Option Nat
  | [] => none
  | cs => digitsValAux cs 0

/-- JavaScript numeric coercion (unary plus) of a string, modelled on the
inputs this module meets: optionally signed decimal integers coerce to
their value, the empty string coerces to 0, and any other string coerces
to NaN, represented as none.  (Fractional, hexadecimal and
whitespace-padded forms are outside the retention counts this service is
configured with and are not modelled.) -/
def jsToNumber (s : String) : Option Int :=
  match s.data with
  | [] => some 0
  | '-' :: rest => (digitsVal rest).map (fun n => -(n : Int))
  | '+' :: rest => (digitsVal rest).map (fun n => (n : Int))
  | l => (digitsVal l).map (fun n => (n : Int))

/-- The retention count read by both sweepers:
+(process.env.BACKUP_RETENTION_DAYS || 7).  An unset or empty variable
defaults to 7; otherwise the string is numerically coerced, which yields
NaN (none) on a non-numeric string. -/
def retentionFromEnv (v : Option String) : Option Int :=
  match v with
  | none => some 7
  | some s => if s = "" then some 7 else jsToNumber s

/-- The start index actually used by Array.prototype.slice(start) on an
array of the given length: NaN coerces to 0, a negative start counts from
the end clamped at 0, and a nonnegative start is clamped at the length. -/
def jsSliceStart (r : Option Int) (len : Nat) : Nat :=
  match r with
  | none => 0
  | some i => if i < 0 then len - min len i.natAbs else min i.toNat len

/-!
File-system and object-store model.
-/

/-- One file in the local backup directory, identified by its base name,
with its modification time. -/
structure LocalFile where
  name : String
  mtime : Int
deriving DecidableEq, Repr

/-- One object in the remote bucket, identified by its key, with the
last-modified instant reported by the listing. -/
structure RemoteObj where
  key : String
  lastModified : Int
deriving DecidableEq, Repr

/-- The state the backup module acts on: the files of BACKUP_DIR, the
scratch directories staged inside it, and the remote object listing. -/
structure World where
  localFiles : List LocalFile
  scratchDirs : List String
  remote : List RemoteObj
deriving DecidableEq, Repr

/-- Creating (or truncating) a file at a path replaces any previous file
of that name and stamps the new modification time. -/
def writeFile (dir : List LocalFile) (f : LocalFile) : List LocalFile :=
  dir.filter (fun g => g.name != f.name) ++ [f]

/-- An S3 put overwrites any object already stored under the key. -/
def putObject (remote : List RemoteObj) (key : String) (now : Int) : List RemoteObj :=
  remote.filter (fun o => o.key != key) ++ [⟨key, now⟩]

/-- The environment variables the backup module reads.  none models an
unset variable. -/
structure BackupEnv where
  backupEnabled : Option String
  dbDriver : Option String
  retentionDays : Option String
  s3Bucket : Option String
  s3AccessKey : Option String
  s3SecretKey : Option String
  s3KeyPref : Option String
  pgDatabase : Option String
  mongoDb : Option String

/-- Outcomes of the external calls of one backup run.  pgDumpExit and
gzipExit are the exit statuses of the two processes of the relational dump
pipeline; mongodumpExit is the exit status of the document dump;
putObjectFails covers a rejection while reading or uploading the artifact;
listObjectsFails covers a rejection of the remote listing (the branch the
source swallows); unlinkFails says which local deletions raise (each is
caught individually by the sweeper). -/
structure Scenario where
  pgDumpExit : Nat
  gzipExit : Nat
  mongodumpExit : Nat
  putObjectFails : Bool
  listObjectsFails : Bool
  unlinkFails : String → Bool

/-- The master switch check of runBackup and scheduleBackups: the variable
must be set and match the anchored case-insensitive regex for true. -/
def backupEnabledFlag (env : BackupEnv) : Bool :=
  match env.backupEnabled with
  | none => false
  | some s => jsToLower s == "true"

/-- Sort a list into descending key order.  Array.prototype.sort with the
comparator subtracting timestamps sorts descending and is stable;
insertion sort with this relation computes the same ordering. -/
def sortDesc (m : α → Int) (l : List α) : List α :=
  List.insertionSort (fun a b => m b ≤ m a) l

/-- The artifact name built by backupPostgres: the pg file base with the
timestamp string and the compressed-sql extension. -/
def pgArtifactName (env : BackupEnv) (tsStr : String) : String :=
  "pg-" ++ envOrDefault env.pgDatabase "request_logs" ++ "-" ++ tsStr ++ ".sql.gz"

/-- backupPostgres (backup module lines 58-74).  The command string
handed to exec is a /bin/sh pipeline: pg_dump piped into gzip with the
output redirected to the artifact path.  The shell performs the
redirection (creating the output file) before the processes run, and the
exit status of a pipeline is the status of its last command, so exec
rejects exactly when gzip fails: a non-zero pg_dump exit alone leaves the
pipeline status 0 (gzip compresses the truncated stream and exits
normally).  On success the artifact path is returned. -/
def backupPostgres (env : BackupEnv) (scen : Scenario) (tsStr : String) (now : Int)
    (w : World) : World × Except Unit String :=
  let outFile := pgArtifactName env tsStr
  let w1 : World := { w with localFiles := writeFile w.localFiles ⟨outFile, now⟩ }
  if scen.gzipExit = 0 then (w1, .ok outFile) else (w1, .error ())

/-- The archive name built by backupMongo: the mongo file base with the
timestamp string and the tarball extension. -/
def mongoArchiveName (env : BackupEnv) (tsStr : String) : String :=
  "mongo-" ++ envOrDefault env.mongoDb "request_logs" ++ "-" ++ tsStr ++ ".tar.gz"

/-- Name of the scratch directory staged by backupMongo. -/
def mongoTmpName (env : BackupEnv) (tsStr : String) : String :=
  "tmp-mongo-" ++ envOrDefault env.mongoDb "request_logs" ++ "-" ++ tsStr

/-- backupMongo (backup module lines 76-87).  A scratch directory is
created first; mongodump writes the gzipped archive; the scratch directory
is removed and the archive path returned.  exec rejects on a non-zero
mongodump exit, in which case the removal line is never reached and the
scratch directory stays behind.  (Whether a failing mongodump leaves a
partial archive is external-tool behaviour; the model writes the archive
only on success.) -/
def backupMongo (env : BackupEnv) (scen : Scenario) (tsStr : String) (now : Int)
    (w : World) : World × Except Unit String :=
  let archive := mongoArchiveName env tsStr
  let tmpDir := mongoTmpName env tsStr
  let w1 : World := { w with scratchDirs := w.scratchDirs ++ [tmpDir] }
  if scen.mongodumpExit = 0 then
    let w2 : World := { w1 with localFiles := writeFile w1.localFiles ⟨archive, now⟩ }
    let w3 : World := { w2 with scratchDirs := w2.scratchDirs.filter (fun d => d != tmpDir) }
    (w3, .ok archive)
  else (w1, .error ())

/-- Result of uploadAndRetain as seen by its caller: returned early with
no upload configured, resolved, or rejected. -/
inductive UploadOutcome where
  | skipped
  | resolved
  | threw
deriving DecidableEq, Repr

/-- Whether a remote object key matches the retention filter regex
pg-|mongo- (an unanchored substring test). -/
def remoteMatch (key : String) : Bool :=
  strHasSub key "pg-" || strHasSub key "mongo-"

/-- The configured key namespace: the default is applied through the ||
idiom and one trailing slash is stripped. -/
def keyPrefOf (env : BackupEnv) : String :=
  let p := envOrDefault env.s3KeyPref "request-logs-service/backups"
  if strEnds p "/" then ⟨p.data.dropLast⟩ else p

/-- uploadAndRetain (backup module lines 89-109).  It returns early when
no bucket is configured or either credential is missing; it uploads the
artifact under the prefixed key (a rejection there propagates); then,
inside a try block whose failures are swallowed, it lists the objects
under the prefix, keeps those matching pg-|mongo-, sorts them by
last-modified descending and deletes every object beyond the retention
count. -/
def uploadAndRetain (env : BackupEnv) (scen : Scenario) (now : Int) (localName : String)
    (w : World) : World × UploadOutcome :=
  if !envSet env.s3Bucket then (w, .skipped)
  else if !(envSet env.s3AccessKey && envSet env.s3SecretKey) then (w, .skipped)
  else if scen.putObjectFails then (w, .threw)
  else
    let pre := keyPrefOf env
    let key := pre ++ "/" ++ localName
    let remote1 := putObject w.remote key now
    let w1 : World := { w with remote := remote1 }
    if scen.listObjectsFails then (w1, .resolved)
    else
      let listed := remote1.filter (fun o => strStarts o.key (pre ++ "/"))
      let files := sortDesc (fun o => o.lastModified) (listed.filter (fun o => remoteMatch o.key))
      let excess := files.drop (jsSliceStart (retentionFromEnv env.retentionDays) files.length)
      let remote2 := remote1.filter (fun o => !(excess.any (fun e => e.key == o.key)))
      ({ w with remote := remote2 }, .resolved)

/-- The extension filter of the local sweeper, the end-anchored regex for
.sql.gz or .tar.gz. -/
def matchesExt (name : String) : Bool :=
  strEnds name ".sql.gz" || strEnds name ".tar.gz"

/-- pruneLocal (backup module lines 111-121).  The directory listing is
filtered to backup extensions, sorted by modification time descending, and
every entry beyond the retention count is unlinked; each unlink failure is
caught individually and leaves that file in place. -/
def pruneLocal (retention : Option Int) (unlinkFails : String → Bool)
    (dir : List LocalFile) : List LocalFile :=
  let entries := sortDesc (fun f => f.mtime) (dir.filter (fun f => matchesExt f.name))
  let excess := entries.drop (jsSliceStart retention entries.length)
  dir.filter (fun f => !(excess.any (fun e => e.name == f.name) && !unlinkFails f.name))

/-- Outcome of one orchestrator run: returned with the disabled log line,
completed through the final log line, or caught by the failure handler. -/
inductive RunOutcome where
  | skippedDisabled
  | completed
  | failed
deriving DecidableEq, Repr

/-- The dump step of runBackup (line 132): the document dump when the
lower-cased driver starts with mongo, the relational dump otherwise. -/
def dumpStep (env : BackupEnv) (scen : Scenario) (tsStr : String) (now : Int)
    (w : World) : World × Except Unit String :=
  if strStarts (jsToLower (envOrDefault env.dbDriver "postgres")) "mongo" then
    backupMongo env scen tsStr now w
  else
    backupPostgres env scen tsStr now w

/-- runBackup (backup module lines 123-140).  A disabled switch returns
immediately.  Otherwise the dump, the upload-and-remote-retention step and
the local sweep run inside a single try block: a dump rejection or an
upload rejection is caught there, logged as the backup failure, and ends
the run with no further step; only when the upload step settles without
rejecting does the local sweep run, after which the run completes. -/
def runBackup (env : BackupEnv) (scen : Scenario) (tsStr : String) (now : Int)
    (w : World) : World × RunOutcome :=
  if backupEnabledFlag env then
    match dumpStep env scen tsStr now w with
    | (w1, .error _) => (w1, .failed)
    | (w1, .ok localName) =>
      match uploadAndRetain env scen now localName w1 with
      | (w2, .threw) => (w2, .failed)
      | (w2, _) =>
        ({ w2 with localFiles :=
            pruneLocal (retentionFromEnv env.retentionDays) scen.unlinkFails w2.localFiles },
         .completed)
  else (w, .skippedDisabled)

/-- What actually holds of a persisted legacy-shaped record: a non-null
server timestamp; each legacy field passed through when present and
truthy, null when absent or falsy; the structured fields explicit nulls in
the relational row but absent from the document-store document. -/
def LegacyShapeSpec (t : Int) (p : JsValue) : Prop :=
  (docGet (buildDoc t p) "ts" = some (.date t) ∧ truthy (.date t) = true) ∧
  (∀ k, k ∈ ["apiUrl", "headers", "requestBody", "responseBody", "userId"] →
    (∀ v, getField p k = some v → truthy v = true → docGet (buildDoc t p) k = some v) ∧
    ((getField p k = none ∨ ∃ v, getField p k = some v ∧ truthy v = false) →
      docGet (buildDoc t p) k = some .null)) ∧
  (∀ k, k ∈ ["event", "entity", "entityId", "actor", "request", "response", "metadata"] →
    docGet (mongoStoredDoc (buildDoc t p)) k = none) ∧
  (∀ c, c ∈ ["event", "entity", "entity_id", "actor", "request", "response", "metadata"] →
    rowGet (pgRowOf (buildDoc t p)) c = some .null)

/-- The five derived compatibility fields with their source object and
sub-field. -/
def derivedTriples : List (String × String × String) :=
  [("apiUrl", "request", "path"), ("headers", "request", "headers"),
   ("requestBody", "request", "body"), ("responseBody", "response", "body"),
   ("userId", "actor", "id")]

/-- What actually holds of the derived compatibility fields of a
structured record: each equals its source sub-field when that sub-field is
present and truthy, and is null when the sub-field is absent or falsy. -/
def DerivedFieldsSpec (t : Int) (p : JsValue) : Prop :=
  ∀ d s k, (d, s, k) ∈ derivedTriples →
    (∀ v, optChain (getField p s) k = some v → truthy v = true →
      docGet (buildDoc t p) d = some v) ∧
    ((optChain (getField p s) k = none ∨
      ∃ v, optChain (getField p s) k = some v ∧ truthy v = false) →
      docGet (buildDoc t p) d = some .null)

/-- The keep-newest pattern shared by the two sweepers: sort the matching
members by descending key, take everything beyond the slice start as
excess, and remove the members whose identifier equals that of an excess
member.  pruneLocal and the retention block of uploadAndRetain are each
proved equal to an instance of this function. -/
def retainNewest {α : Type} (m : α → Int) (idf : α → String) (p : α → Bool)
    (r : Option Int) (l : List α) : List α :=
  let entries := sortDesc m (l.filter p)
  let excess := entries.drop (jsSliceStart r entries.length)
  l.filter (fun x => !(excess.any (fun e => idf e == idf x)))

/-- The retention outcome for the local domain: after the sweep the number
of extension-matching files is the minimum of the retention count and the
previous matching count, and every deleted file matched and is no newer
than any surviving matching file. -/
def LocalRetentionOutcome (n : Nat) (dir result : List LocalFile) : Prop :=
  ((result.filter (fun f => matchesExt f.name)).length =
    min n (dir.filter (fun f => matchesExt f.name)).length) ∧
  ∀ x ∈ dir, x ∉ result →
    matchesExt x.name = true ∧
    ∀ g ∈ result, matchesExt g.name = true → x.mtime ≤ g.mtime

/-- The retention outcome for the remote domain, counted over the objects
under the configured prefix whose key matches the backup-name filter. -/
def RemoteRetentionOutcome (n : Nat) (pre : String) (before result : List RemoteObj) : Prop :=
  ((result.filter (fun o => strStarts o.key (pre ++ "/") && remoteMatch o.key)).length =
    min n (before.filter (fun o => strStarts o.key (pre ++ "/") && remoteMatch o.key)).length) ∧
  ∀ x ∈ before, x ∉ result →
    (strStarts x.key (pre ++ "/") && remoteMatch x.key) = true ∧
    ∀ g ∈ result, (strStarts g.key (pre ++ "/") && remoteMatch g.key) = true →
      x.lastModified ≤ g.lastModified

/-!
Helper lemmas.
-/

theorem truthyOpt_eq_true_iff (o : Option JsValue) :
    truthyOpt o = true ↔ ∃ v, o = some v ∧ truthy v = true := by
  cases o <;> simp [truthyOpt]

theorem jsOr_null_eq_of_truthy (a : Option JsValue) (v : JsValue)
    (hv : a = some v) (ht : truthy v = true) : jsOr a .null = v := by
  subst hv; simp [jsOr, ht]

theorem jsOr_null_eq_null (a : Option JsValue)
    (h : a = none ∨ ∃ v, a = some v ∧ truthy v = false) : jsOr a .null = .null := by
  rcases h with h | ⟨v, hv, ht⟩
  · subst h; rfl
  · subst hv; simp [jsOr, ht]

/-!
Claim C1 — error policy of insertLog.
-/

/-- Claim C1 counterexample: with the document driver the insert does
raise to its caller under a driver-level failure.  The mongo branch of
insertLog returns the bare insertOne promise (persistence.js line 64) with
no catch, so its rejection propagates, refuting the claim that the insert
never raises for every storage backend. -/
theorem insertLog_mongo_raises_cex :
    insertLogRaises "mongo" true false true false = true := by
  decide

/-- Claim C1 (amended): once the driver is initialized, the relational
insert never raises to its caller whatever the query outcome (the
rejection is swallowed by the catch on line 75); the document-store insert
raises exactly when insertOne fails; and when the driver is not yet ready
a failing lazy initialization raises in either mode. -/
theorem insertLog_error_policy :
    (∀ initFails pgFail : Bool, insertLogRaises "postgres" true initFails false pgFail = false) ∧
    (∀ initFails mongoFail : Bool,
      insertLogRaises "mongo" true initFails mongoFail false = mongoFail) ∧
    (∀ mongoFail pgFail : Bool,
      insertLogRaises "mongo" false true mongoFail pgFail = true ∧
      insertLogRaises "postgres" false true mongoFail pgFail = true) := by
  refine ⟨fun a b => ?_, fun a b => ?_, fun a b => ⟨?_, ?_⟩⟩ <;> rfl

/-!
Claim C7 — payload classification.
-/

/-- Claim C7 counterexample: a body containing the key event (with an
empty-string value) is nevertheless classified as legacy, because the
classifier tests truthiness of the property values, not key presence. -/
theorem isStructured_falsy_key_cex :
    hasKey (JsValue.obj [("event", JsValue.str "")]) "event" = true ∧
    isStructured (JsValue.obj [("event", JsValue.str "")]) = false := by
  exact ⟨rfl, rfl⟩

/-- Claim C7 (amended): a body is classified as structured if and only if
it is of JavaScript object type and at least one of the six inspected keys
is present with a truthy value; otherwise it is classified as legacy. -/
theorem isStructured_iff_truthy_key (p : JsValue) :
    isStructured p = true ↔
      (typeofIsObject p = true ∧
       ∃ k ∈ structuredKeys, ∃ v, getField p k = some v ∧ truthy v = true) := by
  simp only [isStructured, Bool.and_eq_true, Bool.or_eq_true, truthyOpt_eq_true_iff]
  constructor
  · rintro ⟨ht, h⟩
    refine ⟨ht, ?_⟩
    rcases h with (((((⟨v, hv, htr⟩ | ⟨v, hv, htr⟩) | ⟨v, hv, htr⟩) | ⟨v, hv, htr⟩) |
      ⟨v, hv, htr⟩) | ⟨v, hv, htr⟩)
    · exact ⟨"event", by simp [structuredKeys], v, hv, htr⟩
    · exact ⟨"entity", by simp [structuredKeys], v, hv, htr⟩
    · exact ⟨"request", by simp [structuredKeys], v, hv, htr⟩
    · exact ⟨"response", by simp [structuredKeys], v, hv, htr⟩
    · exact ⟨"metadata", by simp [structuredKeys], v, hv, htr⟩
    · exact ⟨"actor", by simp [structuredKeys], v, hv, htr⟩
  · rintro ⟨ht, k, hk, v, hv, htr⟩
    refine ⟨ht, ?_⟩
    simp only [structuredKeys, List.mem_cons, List.not_mem_nil, or_false] at hk
    rcases hk with rfl | rfl | rfl | rfl | rfl | rfl
    · exact Or.inl (Or.inl (Or.inl (Or.inl (Or.inl ⟨v, hv, htr⟩))))
    · exact Or.inl (Or.inl (Or.inl (Or.inl (Or.inr ⟨v, hv, htr⟩))))
    · exact Or.inl (Or.inl (Or.inl (Or.inr ⟨v, hv, htr⟩)))
    · exact Or.inl (Or.inl (Or.inr ⟨v, hv, htr⟩))
    · exact Or.inl (Or.inr ⟨v, hv, htr⟩)
    · exact Or.inr ⟨v, hv, htr⟩

/-!
Claim C10 — the timestamp is server-assigned only.
-/

/-- Claim C10: two bodies that agree on every key other than a top-level
ts produce identical constructed records under the same clock reading: the
handler reads the clock with new Date() in both branches and never
consults a client-supplied ts. -/
theorem buildDoc_ignores_client_ts (t : Int) (f1 f2 : List (String × JsValue))
    (h : ∀ k, k ≠ "ts" → getField (JsValue.obj f1) k = getField (JsValue.obj f2) k) :
    buildDoc t (JsValue.obj f1) = buildDoc t (JsValue.obj f2) := by
  have h1 := h "event" (by decide)
  have h2 := h "entity" (by decide)
  have h3 := h "request" (by decide)
  have h4 := h "response" (by decide)
  have h5 := h "metadata" (by decide)
  have h6 := h "actor" (by decide)
  have h7 := h "entityId" (by decide)
  have h8 := h "apiUrl" (by decide)
  have h9 := h "headers" (by decide)
  have h10 := h "requestBody" (by decide)
  have h11 := h "responseBody" (by decide)
  have h12 := h "userId" (by decide)
  simp only [buildDoc, isStructured, typeofIsObject]
  simp only [h1, h2, h3, h4, h5, h6, h7, h8, h9, h10, h11, h12]

/-- Claim C10 witness: a concrete body carrying a client ts builds the
same record as the same body without it. -/
theorem buildDoc_ignores_client_ts_witness :
    buildDoc 0 (JsValue.obj [("userId", JsValue.str "u"), ("ts", JsValue.str "evil")]) =
      buildDoc 0 (JsValue.obj [("userId", JsValue.str "u")]) :=
  buildDoc_ignores_client_ts 0 _ _ (by
    intro k hk
    simp only [getField, lookupField]
    by_cases h1 : "userId" = k
    · simp [h1]
    · have h2 : ¬ ("ts" = k) := fun hts => hk hts.symm
      simp [h1, h2])

/-!
Claim C4 — shape of a persisted legacy record.
-/

/-- Claim C4 counterexample: for the legacy body carrying apiUrl and an
empty-string userId, the document stored by the mongo branch omits the key
event entirely (the legacy branch builds a six-key record and insertOne
stores it verbatim), and userId is persisted as null rather than as the
given empty string — refuting both the explicit-null requirement for the
document store and the as-given requirement for legacy fields. -/
theorem legacy_doc_omits_structured_cex :
    docGet (mongoStoredDoc (buildDoc 5
      (JsValue.obj [("apiUrl", JsValue.str "/x"), ("userId", JsValue.str "")]))) "event"
      = none ∧
    docGet (buildDoc 5
      (JsValue.obj [("apiUrl", JsValue.str "/x"), ("userId", JsValue.str "")])) "userId"
      = some JsValue.null := by
  exact ⟨rfl, rfl⟩

/-- Claim C4 (amended): every legacy-shaped input yields a record with a
non-null server-assigned timestamp; each of the five legacy fields is
stored as given when present with a truthy value and as null when absent
or falsy; the seven structured fields are explicit nulls in the relational
row but are omitted from the document-store document. -/
theorem legacy_record_shape (t : Int) (p : JsValue) (h : isStructured p = false) :
    LegacyShapeSpec t p := by
  have hb : buildDoc t p =
      [("ts", .date t),
       ("apiUrl", jsOr (getField p "apiUrl") .null),
       ("headers", jsOr (getField p "headers") .null),
       ("requestBody", jsOr (getField p "requestBody") .null),
       ("responseBody", jsOr (getField p "responseBody") .null),
       ("userId", jsOr (getField p "userId") .null)] := by
    simp [buildDoc, h]
  refine ⟨⟨by rw [hb]; rfl, rfl⟩, ?_, ?_, ?_⟩
  · intro k hk
    have hspec : ∀ a : Option JsValue,
        ((∀ v, a = some v → truthy v = true → some (jsOr a .null) = some v) ∧
         ((a = none ∨ ∃ v, a = some v ∧ truthy v = false) →
           some (jsOr a .null) = some JsValue.null)) := by
      intro a
      exact ⟨fun v hv ht => by rw [jsOr_null_eq_of_truthy a v hv ht],
             fun hh => by rw [jsOr_null_eq_null a hh]⟩
    simp only [List.mem_cons, List.not_mem_nil, or_false] at hk
    rcases hk with rfl | rfl | rfl | rfl | rfl
    · rw [hb]; exact hspec (getField p "apiUrl")
    · rw [hb]; exact hspec (getField p "headers")
    · rw [hb]; exact hspec (getField p "requestBody")
    · rw [hb]; exact hspec (getField p "responseBody")
    · rw [hb]; exact hspec (getField p "userId")
  · intro k hk
    simp only [List.mem_cons, List.not_mem_nil, or_false] at hk
    rcases hk with rfl | rfl | rfl | rfl | rfl | rfl | rfl
    · rw [mongoStoredDoc, hb]; rfl
    · rw [mongoStoredDoc, hb]; rfl
    · rw [mongoStoredDoc, hb]; rfl
    · rw [mongoStoredDoc, hb]; rfl
    · rw [mongoStoredDoc, hb]; rfl
    · rw [mongoStoredDoc, hb]; rfl
    · rw [mongoStoredDoc, hb]; rfl
  · intro c hc
    simp only [List.mem_cons, List.not_mem_nil, or_false] at hc
    rcases hc with rfl | rfl | rfl | rfl | rfl | rfl | rfl
    · rw [hb]; rfl
    · rw [hb]; rfl
    · rw [hb]; rfl
    · rw [hb]; rfl
    · rw [hb]; rfl
    · rw [hb]; rfl
    · rw [hb]; rfl

/-- Claim C4 witness: the amended shape at a concrete legacy body. -/
theorem legacy_record_shape_witness :
    LegacyShapeSpec 3 (JsValue.obj [("apiUrl", JsValue.str "/v1"), ("userId", JsValue.str "u1")]) :=
  legacy_record_shape 3 _ (by rfl)

/-!
Claim C6 — derived compatibility fields.
-/

/-- Claim C6 counterexample: a structured body whose request.path is
present but equal to the empty string derives apiUrl = null rather than
the present sub-field value, because the derivation uses || null on the
chained access. -/
theorem derived_field_falsy_cex :
    optChain (getField (JsValue.obj [("event", JsValue.str "e"),
      ("request", JsValue.obj [("path", JsValue.str "")])]) "request") "path"
      = some (JsValue.str "") ∧
    docGet (buildDoc 0 (JsValue.obj [("event", JsValue.str "e"),
      ("request", JsValue.obj [("path", JsValue.str "")])])) "apiUrl"
      = some JsValue.null := by
  exact ⟨rfl, rfl⟩

/-- Claim C6 (amended): for every structured-shaped input, each derived
compatibility field equals its source sub-field whenever that sub-field is
present with a truthy value, and equals null when the sub-field is absent
or present with a falsy value; the derivation happens once, at record
construction. -/
theorem derived_compat_fields (t : Int) (p : JsValue) (h : isStructured p = true) :
    DerivedFieldsSpec t p := by
  have hb : buildDoc t p =
      [("ts", .date t),
       ("event", jsOr (getField p "event") .null),
       ("entity", jsOr (getField p "entity") .null),
       ("entityId", jsOr (getField p "entityId") .null),
       ("actor", jsOr (getField p "actor") .null),
       ("request", jsOr (getField p "request") .null),
       ("response", jsOr (getField p "response") .null),
       ("metadata", jsOr (getField p "metadata") .null),
       ("apiUrl", jsOr (optChain (getField p "request") "path") .null),
       ("headers", jsOr (optChain (getField p "request") "headers") .null),
       ("requestBody", jsOr (optChain (getField p "request") "body") .null),
       ("responseBody", jsOr (optChain (getField p "response") "body") .null),
       ("userId", jsOr (optChain (getField p "actor") "id") .null)] := by
    simp [buildDoc, h]
  intro d s k hk
  have hspec : ∀ a : Option JsValue,
      ((∀ v, a = some v → truthy v = true → some (jsOr a .null) = some v) ∧
       ((a = none ∨ ∃ v, a = some v ∧ truthy v = false) →
         some (jsOr a .null) = some JsValue.null)) := by
    intro a
    exact ⟨fun v hv ht => by rw [jsOr_null_eq_of_truthy a v hv ht],
           fun hh => by rw [jsOr_null_eq_null a hh]⟩
  simp only [derivedTriples, List.mem_cons, List.not_mem_nil, or_false,
    Prod.mk.injEq] at hk
  rcases hk with ⟨rfl, rfl, rfl⟩ | ⟨rfl, rfl, rfl⟩ | ⟨rfl, rfl, rfl⟩ |
    ⟨rfl, rfl, rfl⟩ | ⟨rfl, rfl, rfl⟩
  · rw [hb]; exact hspec (optChain (getField p "request") "path")
  · rw [hb]; exact hspec (optChain (getField p "request") "headers")
  · rw [hb]; exact hspec (optChain (getField p "request") "body")
  · rw [hb]; exact hspec (optChain (getField p "response") "body")
  · rw [hb]; exact hspec (optChain (getField p "actor") "id")

/-- Claim C6 witness: the amended derivation at a concrete structured
body. -/
theorem derived_compat_fields_witness :
    DerivedFieldsSpec 1 (JsValue.obj [("event", JsValue.str "e"),
      ("request", JsValue.obj [("path", JsValue.str "/a/b")])]) :=
  derived_compat_fields 1 _ (by rfl)

/-!
Lemmas about the upload step.
-/

theorem uploadAndRetain_localFiles (env : BackupEnv) (scen : Scenario) (now : Int)
    (localName : String) (w : World) :
    (uploadAndRetain env scen now localName w).1.localFiles = w.localFiles ∧
    (uploadAndRetain env scen now localName w).1.scratchDirs = w.scratchDirs := by
  unfold uploadAndRetain
  (repeat' split) <;> exact ⟨rfl, rfl⟩

theorem uploadAndRetain_not_threw (env : BackupEnv) (scen : Scenario) (now : Int)
    (localName : String) (w : World) (h : scen.putObjectFails = false) :
    (uploadAndRetain env scen now localName w).2 ≠ .threw := by
  unfold uploadAndRetain
  (repeat' split) <;> simp_all

/-!
Claim C8 — the scratch directory of the document dump.
-/

/-- Claim C8 counterexample: a failing mongodump (non-zero exit) leaves
the scratch directory behind — exec rejects before the removal line runs,
refuting the claim that the directory is removed regardless of success or
failure. -/
theorem mongo_scratch_left_cex :
    (backupMongo ⟨some "true", some "mongo", none, none, none, none, none, none, none⟩
      ⟨0, 0, 1, false, false, fun _ => false⟩ "T" 2 ⟨[], [], []⟩).1.scratchDirs
      = ["tmp-mongo-request_logs-T"] := by
  rfl

/-- Claim C8 (amended): the scratch directory is removed only when the
export process exits successfully; on a failing export the removal line is
never reached and the scratch directory is left behind. -/
theorem mongo_scratch_lifecycle (env : BackupEnv) (scen : Scenario) (tsStr : String)
    (now : Int) (w : World) :
    (scen.mongodumpExit = 0 →
      (backupMongo env scen tsStr now w).1.scratchDirs =
        w.scratchDirs.filter (fun d => d != mongoTmpName env tsStr)) ∧
    (scen.mongodumpExit ≠ 0 →
      (backupMongo env scen tsStr now w).1.scratchDirs =
        w.scratchDirs ++ [mongoTmpName env tsStr]) := by
  constructor
  · intro h
    simp [backupMongo, h, List.filter_append]
  · intro h
    simp [backupMongo, h]

/-- Claim C8 witness: the amended lifecycle at a successful and at a
failing concrete export. -/
theorem mongo_scratch_lifecycle_witness :
    ((backupMongo ⟨some "true", some "mongo", none, none, none, none, none, none, none⟩
        ⟨0, 0, 0, false, false, fun _ => false⟩ "T" 2 ⟨[], ["old"], []⟩).1.scratchDirs =
      List.filter (fun d => d != mongoTmpName
        ⟨some "true", some "mongo", none, none, none, none, none, none, none⟩ "T") ["old"]) ∧
    ((backupMongo ⟨some "true", some "mongo", none, none, none, none, none, none, none⟩
        ⟨0, 0, 5, false, false, fun _ => false⟩ "T" 2 ⟨[], ["old"], []⟩).1.scratchDirs =
      ["old"] ++ [mongoTmpName
        ⟨some "true", some "mongo", none, none, none, none, none, none, none⟩ "T"]) :=
  ⟨(mongo_scratch_lifecycle _ _ _ _ _).1 rfl,
   (mongo_scratch_lifecycle _ _ _ _ _).2 (by decide)⟩

/-!
Claim C2 — local pruning versus remote failures.
-/

/-- Claim C2 counterexample: a run whose dump succeeds but whose remote
upload rejects ends in the failed state with the local directory
unpruned — three matching artifacts remain although the configured
retention is 1 — refuting the claim that a remote archiving failure never
skips local pruning nor ends the run failed.  The upload rejection
propagates out of uploadAndRetain (only the later listing/deletion block
is inside the swallowed try) into the catch of runBackup. -/
theorem upload_failure_skips_prune_cex :
    (runBackup ⟨some "true", none, some "1", some "b", some "k", some "s", none, none, none⟩
      ⟨0, 0, 0, true, false, fun _ => false⟩ "C" 3
      ⟨[⟨"pg-request_logs-A.sql.gz", 1⟩, ⟨"pg-request_logs-B.sql.gz", 2⟩], [], []⟩).2
      = RunOutcome.failed ∧
    ((runBackup ⟨some "true", none, some "1", some "b", some "k", some "s", none, none, none⟩
      ⟨0, 0, 0, true, false, fun _ => false⟩ "C" 3
      ⟨[⟨"pg-request_logs-A.sql.gz", 1⟩, ⟨"pg-request_logs-B.sql.gz", 2⟩], [], []⟩).1.localFiles.filter
      (fun f => matchesExt f.name)).length = 3 ∧
    retentionFromEnv (some "1") = some 1 := by
  exact ⟨rfl, rfl, rfl⟩

/-- Claim C2 (amended): when the dump succeeds, the local sweeper runs and
the run completes provided the upload step does not reject — in
particular when remote archiving is skipped for missing configuration, or
when the post-upload remote listing/deletion fails (that failure is
swallowed inside uploadAndRetain); but when the upload itself rejects,
the run ends failed and local pruning is skipped. -/
theorem prune_runs_unless_upload_throws :
    (∀ (env : BackupEnv) (scen : Scenario) (tsStr : String) (now : Int) (w w1 : World)
      (localName : String),
      backupEnabledFlag env = true →
      dumpStep env scen tsStr now w = (w1, Except.ok localName) →
      scen.putObjectFails = false →
      (runBackup env scen tsStr now w).2 = RunOutcome.completed ∧
      (runBackup env scen tsStr now w).1.localFiles =
        pruneLocal (retentionFromEnv env.retentionDays) scen.unlinkFails w1.localFiles) ∧
    (∀ (env : BackupEnv) (scen : Scenario) (tsStr : String) (now : Int) (w w1 : World)
      (localName : String),
      backupEnabledFlag env = true →
      dumpStep env scen tsStr now w = (w1, Except.ok localName) →
      scen.putObjectFails = true →
      envSet env.s3Bucket = true →
      (envSet env.s3AccessKey && envSet env.s3SecretKey) = true →
      (runBackup env scen tsStr now w).2 = RunOutcome.failed ∧
      (runBackup env scen tsStr now w).1.localFiles = w1.localFiles) := by
  constructor
  · intro env scen tsStr now w w1 localName hen hdump hput
    have hpres := (uploadAndRetain_localFiles env scen now localName w1).1
    have hnt := uploadAndRetain_not_threw env scen now localName w1 hput
    unfold runBackup
    rw [if_pos hen, hdump]
    dsimp only
    rcases hu : uploadAndRetain env scen now localName w1 with ⟨w2, u⟩
    rw [hu] at hpres hnt
    cases u
    · exact ⟨rfl, congrArg (pruneLocal (retentionFromEnv env.retentionDays) scen.unlinkFails) hpres⟩
    · exact ⟨rfl, congrArg (pruneLocal (retentionFromEnv env.retentionDays) scen.unlinkFails) hpres⟩
    · exact absurd rfl hnt
  · intro env scen tsStr now w w1 localName hen hdump hput hbucket hcreds
    have hu : uploadAndRetain env scen now localName w1 = (w1, .threw) := by
      unfold uploadAndRetain
      rw [hbucket, hcreds, hput]
      rfl
    unfold runBackup
    rw [if_pos hen, hdump]
    dsimp only
    rw [hu]
    exact ⟨rfl, rfl⟩

/-- Claim C2 witness: both halves of the amended statement at concrete
runs — an unconfigured-remote run that completes and prunes, and an
upload-rejecting run that fails with the dump-step state intact. -/
theorem prune_runs_unless_upload_throws_witness :
    ((runBackup ⟨some "true", none, some "1", none, none, none, none, none, none⟩
        ⟨0, 0, 0, false, false, fun _ => false⟩ "T" 9 ⟨[], [], []⟩).2
        = RunOutcome.completed ∧
      (runBackup ⟨some "true", none, some "1", none, none, none, none, none, none⟩
        ⟨0, 0, 0, false, false, fun _ => false⟩ "T" 9 ⟨[], [], []⟩).1.localFiles =
        pruneLocal (retentionFromEnv (some "1")) (fun _ => false)
          (⟨[⟨"pg-request_logs-T.sql.gz", 9⟩], [], []⟩ : World).localFiles) ∧
    ((runBackup ⟨some "true", none, some "1", some "b", some "k", some "s", none, none, none⟩
        ⟨0, 0, 0, true, false, fun _ => false⟩ "T" 9 ⟨[], [], []⟩).2
        = RunOutcome.failed ∧
      (runBackup ⟨some "true", none, some "1", some "b", some "k", some "s", none, none, none⟩
        ⟨0, 0, 0, true, false, fun _ => false⟩ "T" 9 ⟨[], [], []⟩).1.localFiles =
        (⟨[⟨"pg-request_logs-T.sql.gz", 9⟩], [], []⟩ : World).localFiles) :=
  ⟨prune_runs_unless_upload_throws.1 _ _ "T" 9 ⟨[], [], []⟩ _ "pg-request_logs-T.sql.gz"
      rfl rfl rfl,
   prune_runs_unless_upload_throws.2 _ _ "T" 9 ⟨[], [], []⟩ _ "pg-request_logs-T.sql.gz"
      rfl rfl rfl rfl rfl⟩

/-!
Claim C3 — what a failed dump actually does.
-/

/-- Claim C3 counterexample: the export utility exits non-zero
(pgDumpExit = 1) yet the run does not fail: the shell pipeline's exit
status is gzip's, so exec resolves, and the run proceeds through upload
and pruning with the redirection-created artifact now present — the local
artifact set has changed.  This refutes the hard-failure, no-upload,
no-prune and sets-unchanged parts of the claim for the relational path. -/
theorem pg_dump_failure_not_hard_cex :
    (⟨1, 0, 0, false, false, fun _ => false⟩ : Scenario).pgDumpExit = 1 ∧
    runBackup ⟨some "true", none, none, none, none, none, none, none, none⟩
      ⟨1, 0, 0, false, false, fun _ => false⟩ "T" 9 ⟨[], [], []⟩
      = (⟨[⟨"pg-request_logs-T.sql.gz", 9⟩], [], []⟩, RunOutcome.completed) := by
  exact ⟨rfl, rfl⟩

/-- Claim C3 (amended): on the document path a failing export does abort
the run — no upload, no pruning, local artifacts and remote set unchanged,
though the scratch directory is left behind.  On the relational path the
outcome of a run is entirely independent of the export utility's own exit
status (the pipeline reports gzip's status), and the artifact file is
created by the shell redirection whether or not the pipeline fails. -/
theorem dump_failure_policy :
    (∀ (env : BackupEnv) (scen : Scenario) (tsStr : String) (now : Int) (w : World),
      backupEnabledFlag env = true →
      strStarts (jsToLower (envOrDefault env.dbDriver "postgres")) "mongo" = true →
      scen.mongodumpExit ≠ 0 →
      runBackup env scen tsStr now w =
        ({ w with scratchDirs := w.scratchDirs ++ [mongoTmpName env tsStr] },
         RunOutcome.failed)) ∧
    (∀ (env : BackupEnv) (scen : Scenario) (tsStr : String) (now : Int) (w : World)
      (e1 e2 : Nat),
      runBackup env { scen with pgDumpExit := e1 } tsStr now w =
        runBackup env { scen with pgDumpExit := e2 } tsStr now w) ∧
    (∀ (env : BackupEnv) (scen : Scenario) (tsStr : String) (now : Int) (w : World),
      backupPostgres env scen tsStr now w =
        ({ w with localFiles := writeFile w.localFiles ⟨pgArtifactName env tsStr, now⟩ },
         if scen.gzipExit = 0 then Except.ok (pgArtifactName env tsStr)
         else Except.error ())) := by
  refine ⟨?_, ?_, ?_⟩
  · intro env scen tsStr now w hen hdrv hmex
    unfold runBackup dumpStep backupMongo
    rw [if_pos hen, if_pos hdrv]
    dsimp only
    rw [if_neg hmex]
  · intro env scen tsStr now w e1 e2
    cases scen
    rfl
  · intro env scen tsStr now w
    unfold backupPostgres
    by_cases h : scen.gzipExit = 0 <;> simp [h]

/-- Claim C3 witness: the amended document-path behaviour at a concrete
failing mongodump run. -/
theorem dump_failure_policy_witness :
    runBackup ⟨some "true", some "mongo", none, none, none, none, none, none, none⟩
      ⟨0, 0, 7, false, false, fun _ => false⟩ "T" 2
      ⟨[⟨"mongo-request_logs-A.tar.gz", 1⟩], [], [⟨"r", 0⟩]⟩
      = (⟨[⟨"mongo-request_logs-A.tar.gz", 1⟩], [] ++ [mongoTmpName
          ⟨some "true", some "mongo", none, none, none, none, none, none, none⟩ "T"],
          [⟨"r", 0⟩]⟩, RunOutcome.failed) :=
  dump_failure_policy.1 _ _ "T" 2 _ rfl rfl (by decide)

/-!
Lemmas about the keep-newest retention pattern.
-/

theorem sortDesc_perm {α : Type} (m : α → Int) (l : List α) :
    (sortDesc m l).Perm l :=
  List.perm_insertionSort _ l

theorem sortDesc_pairwise {α : Type} (m : α → Int) (l : List α) :
    (sortDesc m l).Pairwise (fun a b => m b ≤ m a) := by
  letI : IsTotal α (fun a b => m b ≤ m a) := ⟨fun a b => le_total (m b) (m a)⟩
  letI : IsTrans α (fun a b => m b ≤ m a) := ⟨fun a b c h1 h2 => le_trans h2 h1⟩
  exact List.sorted_insertionSort _ l

theorem jsSliceStart_coe (n : Nat) (len : Nat) :
    jsSliceStart (some (n : Int)) len = min n len := by
  unfold jsSliceStart
  dsimp only
  rw [if_neg (not_lt.mpr (Int.natCast_nonneg n)), Int.toNat_natCast]

theorem retainNewest_eq_filter {α : Type} (m : α → Int) (idf : α → String) (p : α → Bool)
    (n : Nat) (l : List α) :
    retainNewest m idf p (some (n : Int)) l =
      l.filter (fun x => !((sortDesc m (l.filter p)).drop
        (min n (sortDesc m (l.filter p)).length)).any (fun e => idf e == idf x)) := by
  unfold retainNewest
  dsimp only
  rw [jsSliceStart_coe]

theorem retainNewest_spec {α : Type} (m : α → Int) (idf : α → String) (p : α → Bool)
    (n : Nat) (l : List α) (hnd : (l.map idf).Nodup) :
    ((retainNewest m idf p (some (n : Int)) l).filter p).length = min n (l.filter p).length ∧
    ∀ x ∈ l, x ∉ retainNewest m idf p (some (n : Int)) l →
      p x = true ∧
      ∀ g ∈ retainNewest m idf p (some (n : Int)) l, p g = true → m x ≤ m g := by
  rw [retainNewest_eq_filter]
  have hperm : (sortDesc m (l.filter p)).Perm (l.filter p) := sortDesc_perm m (l.filter p)
  have hpw : (sortDesc m (l.filter p)).Pairwise (fun a b => m b ≤ m a) :=
    sortDesc_pairwise m (l.filter p)
  revert hperm hpw
  generalize sortDesc m (l.filter p) = entries
  intro hperm hpw
  have hlenE : entries.length = (l.filter p).length := hperm.length_eq
  have hndM : ((l.filter p).map idf).Nodup :=
    List.Nodup.sublist (List.Sublist.map idf (List.filter_sublist l)) hnd
  have hndE : (entries.map idf).Nodup := ((hperm.map idf).nodup_iff).mpr hndM
  set T := entries.take (min n entries.length) with hT
  set D := entries.drop (min n entries.length) with hD
  have hsplit : T ++ D = entries := List.take_append_drop _ entries
  have hdisj : ∀ a ∈ T, ∀ b ∈ D, idf a ≠ idf b := by
    have hx := hndE
    rw [← hsplit, List.map_append, List.nodup_append] at hx
    intro a ha b hb heq
    exact hx.2.2 (List.mem_map_of_mem idf ha) (heq ▸ List.mem_map_of_mem idf hb)
  have hQkept : ∀ x ∈ T, (!D.any (fun e => idf e == idf x)) = true := by
    intro x hx
    have hfalse : D.any (fun e => idf e == idf x) = false := by
      by_contra hcon
      obtain ⟨e, he, hbe⟩ := List.any_eq_true.mp (Bool.not_eq_false _ ▸ hcon)
      exact hdisj x hx e he (beq_iff_eq.mp hbe).symm
    rw [hfalse]
    rfl
  have hQex : ∀ x ∈ D, ¬((!D.any (fun e => idf e == idf x)) = true) := by
    intro x hx
    have htrue : D.any (fun e => idf e == idf x) = true :=
      List.any_eq_true.mpr ⟨x, hx, by simp⟩
    rw [htrue]
    simp
  have hEfilter : entries.filter (fun x => !D.any (fun e => idf e == idf x)) = T := by
    rw [← hsplit, List.filter_append, List.filter_eq_self.mpr hQkept,
      List.filter_eq_nil_iff.mpr hQex, List.append_nil]
  have hcomm : (l.filter (fun x => !D.any (fun e => idf e == idf x))).filter p
      = (l.filter p).filter (fun x => !D.any (fun e => idf e == idf x)) := by
    rw [List.filter_filter, List.filter_filter]
    exact List.filter_congr (fun x _ => Bool.and_comm _ _)
  have hresperm : ((l.filter (fun x => !D.any (fun e => idf e == idf x))).filter p).Perm T := by
    rw [hcomm, ← hEfilter]
    exact (hperm.filter _).symm
  constructor
  · rw [hresperm.length_eq, hT, List.length_take, hlenE, min_assoc, min_self]
  · intro x hx hnotin
    have hQx : ¬((!D.any (fun e => idf e == idf x)) = true) := by
      intro hq
      exact hnotin (List.mem_filter.mpr ⟨hx, hq⟩)
    have hany : D.any (fun e => idf e == idf x) = true := by
      revert hQx
      cases hv : D.any (fun e => idf e == idf x) <;> simp
    obtain ⟨e, he, hbe⟩ := List.any_eq_true.mp hany
    have heq : idf e = idf x := beq_iff_eq.mp hbe
    have heM : e ∈ l.filter p := by
      refine hperm.mem_iff.mp (List.Sublist.mem he ?_)
      rw [hD]
      exact List.drop_sublist _ entries
    have hel : e ∈ l := (List.mem_filter.mp heM).1
    have hpe : p e = true := (List.mem_filter.mp heM).2
    have hex : e = x := List.inj_on_of_nodup_map hnd hel hx heq
    subst hex
    refine ⟨hpe, ?_⟩
    intro g hg hpg
    have hgk : g ∈ T := hresperm.mem_iff.mp (List.mem_filter.mpr ⟨hg, hpg⟩)
    have hpwsplit := hpw
    rw [← hsplit, List.pairwise_append] at hpwsplit
    exact hpwsplit.2.2 g hgk e he

theorem retainNewest_nan {α : Type} (m : α → Int) (idf : α → String) (p : α → Bool)
    (l : List α) (hidp : ∀ x y, idf x = idf y → p x = p y) :
    retainNewest m idf p none l = l.filter (fun x => !(p x)) := by
  unfold retainNewest
  have hperm : (sortDesc m (l.filter p)).Perm (l.filter p) := sortDesc_perm m (l.filter p)
  simp only [jsSliceStart, List.drop_zero]
  refine List.filter_congr ?_
  intro x hx
  congr 1
  cases hp : p x
  · have hfalse : (sortDesc m (l.filter p)).any (fun e => idf e == idf x) = false := by
      by_contra hcon
      obtain ⟨e, he, hbe⟩ := List.any_eq_true.mp (Bool.not_eq_false _ ▸ hcon)
      have hpe : p e = true := (List.mem_filter.mp (hperm.mem_iff.mp he)).2
      rw [hidp e x (beq_iff_eq.mp hbe)] at hpe
      rw [hp] at hpe
      exact Bool.false_ne_true hpe
    rw [hfalse]
  · have htrue : (sortDesc m (l.filter p)).any (fun e => idf e == idf x) = true := by
      refine List.any_eq_true.mpr ⟨x, ?_, by simp⟩
      exact hperm.mem_iff.mpr (List.mem_filter.mpr ⟨hx, hp⟩)
    rw [htrue]

theorem pruneLocal_eq_retainNewest (r : Option Int) (uf : String → Bool)
    (dir : List LocalFile) (huf : ∀ s, uf s = false) :
    pruneLocal r uf dir =
      retainNewest (fun f => f.mtime) (fun f => f.name) (fun f => matchesExt f.name) r dir := by
  unfold pruneLocal retainNewest
  refine List.filter_congr ?_
  intro x hx
  rw [huf x.name]
  simp

theorem uploadAndRetain_remote_eq (env : BackupEnv) (scen : Scenario) (now : Int)
    (localName : String) (w : World)
    (hb : envSet env.s3Bucket = true)
    (hc : (envSet env.s3AccessKey && envSet env.s3SecretKey) = true)
    (hp : scen.putObjectFails = false)
    (hl : scen.listObjectsFails = false) :
    (uploadAndRetain env scen now localName w).1.remote =
      retainNewest (fun o => o.lastModified) (fun o => o.key)
        (fun o => strStarts o.key (keyPrefOf env ++ "/") && remoteMatch o.key)
        (retentionFromEnv env.retentionDays)
        (putObject w.remote (keyPrefOf env ++ "/" ++ localName) now) := by
  unfold uploadAndRetain retainNewest
  rw [hb, hc, hp, hl]
  dsimp only
  rw [List.filter_filter]
  rw [List.filter_congr (fun (x : RemoteObj) _ => Bool.and_comm
    (remoteMatch x.key) (strStarts x.key (keyPrefOf env ++ "/")))]
  simp

theorem runBackup_ok_shape (env : BackupEnv) (scen : Scenario) (tsStr : String) (now : Int)
    (w w1 : World) (localName : String)
    (hen : backupEnabledFlag env = true)
    (hdump : dumpStep env scen tsStr now w = (w1, Except.ok localName))
    (hput : scen.putObjectFails = false) :
    (runBackup env scen tsStr now w).1.localFiles =
      pruneLocal (retentionFromEnv env.retentionDays) scen.unlinkFails w1.localFiles ∧
    (runBackup env scen tsStr now w).1.remote =
      (uploadAndRetain env scen now localName w1).1.remote := by
  have hpres := (uploadAndRetain_localFiles env scen now localName w1).1
  have hnt := uploadAndRetain_not_threw env scen now localName w1 hput
  unfold runBackup
  rw [if_pos hen, hdump]
  dsimp only
  rcases hu : uploadAndRetain env scen now localName w1 with ⟨w2, u⟩
  rw [hu] at hpres hnt
  cases u
  · exact ⟨congrArg (pruneLocal (retentionFromEnv env.retentionDays) scen.unlinkFails) hpres,
      rfl⟩
  · exact ⟨congrArg (pruneLocal (retentionFromEnv env.retentionDays) scen.unlinkFails) hpres,
      rfl⟩
  · exact absurd rfl hnt

/-!
Claim C5 — the retention invariant.
-/

/-- Claim C5 counterexample: a run that completes (the remote listing
failure is swallowed) leaves three matching objects under the remote
prefix although the configured retention count is 1 — the invariant that
after any run every domain holds at most N matching artifacts is false. -/
theorem retention_not_enforced_cex :
    (runBackup ⟨some "true", none, some "1", some "b", some "k", some "s", none, none, none⟩
      ⟨0, 0, 0, false, true, fun _ => false⟩ "C" 9
      ⟨[], [], [⟨"request-logs-service/backups/pg-request_logs-A.sql.gz", 1⟩,
        ⟨"request-logs-service/backups/pg-request_logs-B.sql.gz", 2⟩]⟩).2
      = RunOutcome.completed ∧
    ((runBackup ⟨some "true", none, some "1", some "b", some "k", some "s", none, none, none⟩
      ⟨0, 0, 0, false, true, fun _ => false⟩ "C" 9
      ⟨[], [], [⟨"request-logs-service/backups/pg-request_logs-A.sql.gz", 1⟩,
        ⟨"request-logs-service/backups/pg-request_logs-B.sql.gz", 2⟩]⟩).1.remote.filter
      (fun o => remoteMatch o.key)).length = 3 ∧
    retentionFromEnv (some "1") = some 1 := by
  exact ⟨rfl, rfl, rfl⟩

/-- Claim C5 (amended): the retention invariant holds for the runs whose
enforcement paths execute: when the run is enabled, the dump succeeds, the
upload step does not reject, the retention count coerces to a nonnegative
integer N, and the per-file deletions succeed, then — given distinct file
names — the local directory afterwards holds min(N, previous matching
count) extension-matching artifacts and every deleted file matched and was
no newer than any surviving matching file; and likewise for the remote
prefix when remote storage is configured and the listing succeeds, counted
over the post-upload object set.  Runs that are disabled, fail at dump or
upload, or hit a swallowed remote retention failure leave the excess in
place (see the counterexample). -/
theorem retention_after_run :
    ∀ (env : BackupEnv) (scen : Scenario) (tsStr : String) (now : Int) (w w1 : World)
      (localName : String) (n : Nat),
      backupEnabledFlag env = true →
      dumpStep env scen tsStr now w = (w1, Except.ok localName) →
      scen.putObjectFails = false →
      retentionFromEnv env.retentionDays = some (n : Int) →
      (∀ s, scen.unlinkFails s = false) →
      ((w1.localFiles.map (fun f => f.name)).Nodup →
        LocalRetentionOutcome n w1.localFiles (runBackup env scen tsStr now w).1.localFiles) ∧
      (envSet env.s3Bucket = true →
       (envSet env.s3AccessKey && envSet env.s3SecretKey) = true →
       scen.listObjectsFails = false →
       ((putObject w1.remote (keyPrefOf env ++ "/" ++ localName) now).map
          (fun o => o.key)).Nodup →
        RemoteRetentionOutcome n (keyPrefOf env)
          (putObject w1.remote (keyPrefOf env ++ "/" ++ localName) now)
          (runBackup env scen tsStr now w).1.remote) := by
  intro env scen tsStr now w w1 localName n hen hdump hput hret hunl
  obtain ⟨hloc, hrem⟩ := runBackup_ok_shape env scen tsStr now w w1 localName hen hdump hput
  constructor
  · intro hnd
    unfold LocalRetentionOutcome
    rw [hloc, pruneLocal_eq_retainNewest _ _ _ hunl, hret]
    exact retainNewest_spec _ _ _ n w1.localFiles hnd
  · intro hb hc hl hnd
    unfold RemoteRetentionOutcome
    rw [hrem, uploadAndRetain_remote_eq env scen now localName w1 hb hc hput hl, hret]
    exact retainNewest_spec _ _ _ n _ hnd

/-- Claim C5 witness: the amended retention outcome at a concrete happy
run with retention 1. -/
theorem retention_after_run_witness :
    LocalRetentionOutcome 1
      (⟨[⟨"pg-request_logs-A.sql.gz", 1⟩, ⟨"pg-request_logs-C.sql.gz", 9⟩], [],
        [⟨"request-logs-service/backups/pg-request_logs-A.sql.gz", 1⟩]⟩ : World).localFiles
      (runBackup ⟨some "true", none, some "1", some "b", some "k", some "s", none, none, none⟩
        ⟨0, 0, 0, false, false, fun _ => false⟩ "C" 9
        ⟨[⟨"pg-request_logs-A.sql.gz", 1⟩], [],
          [⟨"request-logs-service/backups/pg-request_logs-A.sql.gz", 1⟩]⟩).1.localFiles ∧
    RemoteRetentionOutcome 1
      (keyPrefOf ⟨some "true", none, some "1", some "b", some "k", some "s", none, none, none⟩)
      (putObject (⟨[⟨"pg-request_logs-A.sql.gz", 1⟩, ⟨"pg-request_logs-C.sql.gz", 9⟩], [],
          [⟨"request-logs-service/backups/pg-request_logs-A.sql.gz", 1⟩]⟩ : World).remote
        (keyPrefOf ⟨some "true", none, some "1", some "b", some "k", some "s", none, none, none⟩
          ++ "/" ++ "pg-request_logs-C.sql.gz") 9)
      (runBackup ⟨some "true", none, some "1", some "b", some "k", some "s", none, none, none⟩
        ⟨0, 0, 0, false, false, fun _ => false⟩ "C" 9
        ⟨[⟨"pg-request_logs-A.sql.gz", 1⟩], [],
          [⟨"request-logs-service/backups/pg-request_logs-A.sql.gz", 1⟩]⟩).1.remote :=
  ⟨(retention_after_run ⟨some "true", none, some "1", some "b", some "k", some "s", none, none, none⟩
      ⟨0, 0, 0, false, false, fun _ => false⟩ "C" 9
      ⟨[⟨"pg-request_logs-A.sql.gz", 1⟩], [],
        [⟨"request-logs-service/backups/pg-request_logs-A.sql.gz", 1⟩]⟩
      ⟨[⟨"pg-request_logs-A.sql.gz", 1⟩, ⟨"pg-request_logs-C.sql.gz", 9⟩], [],
        [⟨"request-logs-service/backups/pg-request_logs-A.sql.gz", 1⟩]⟩
      "pg-request_logs-C.sql.gz" 1 rfl rfl rfl rfl
      (fun s => rfl)).1 (by decide),
   (retention_after_run ⟨some "true", none, some "1", some "b", some "k", some "s", none, none, none⟩
      ⟨0, 0, 0, false, false, fun _ => false⟩ "C" 9
      ⟨[⟨"pg-request_logs-A.sql.gz", 1⟩], [],
        [⟨"request-logs-service/backups/pg-request_logs-A.sql.gz", 1⟩]⟩
      ⟨[⟨"pg-request_logs-A.sql.gz", 1⟩, ⟨"pg-request_logs-C.sql.gz", 9⟩], [],
        [⟨"request-logs-service/backups/pg-request_logs-A.sql.gz", 1⟩]⟩
      "pg-request_logs-C.sql.gz" 1 rfl rfl rfl rfl
      (fun s => rfl)).2 rfl rfl rfl (by decide)⟩

/-!
Claim C9 — NaN retention count.
-/

/-- Claim C9: a non-numeric BACKUP_RETENTION_DAYS coerces to NaN; slice of
NaN starts at index 0, so every matching entry is excess: the local
sweeper deletes every extension-matching file and keeps the rest, and the
remote retention step deletes every object under the prefix whose key
matches the pg- or mongo- filter (including the object just uploaded),
keeping the rest. -/
theorem nan_retention_deletes_all :
    (∀ s : String, s ≠ "" → jsToNumber s = none → retentionFromEnv (some s) = none) ∧
    (∀ (s : String) (uf : String → Bool) (dir : List LocalFile),
      s ≠ "" → jsToNumber s = none → (∀ q, uf q = false) →
      pruneLocal (retentionFromEnv (some s)) uf dir =
        dir.filter (fun f => !matchesExt f.name)) ∧
    (∀ (s : String) (env : BackupEnv) (scen : Scenario) (now : Int) (localName : String)
      (w : World),
      env.retentionDays = some s → s ≠ "" → jsToNumber s = none →
      envSet env.s3Bucket = true →
      (envSet env.s3AccessKey && envSet env.s3SecretKey) = true →
      scen.putObjectFails = false →
      scen.listObjectsFails = false →
      (uploadAndRetain env scen now localName w).1.remote =
        (putObject w.remote (keyPrefOf env ++ "/" ++ localName) now).filter
          (fun o => !(strStarts o.key (keyPrefOf env ++ "/") && remoteMatch o.key))) := by
  have hnan : ∀ s : String, s ≠ "" → jsToNumber s = none →
      retentionFromEnv (some s) = none := by
    intro s hne hnum
    unfold retentionFromEnv
    dsimp only
    rw [if_neg hne, hnum]
  refine ⟨hnan, ?_, ?_⟩
  · intro s uf dir hne hnum huf
    rw [hnan s hne hnum, pruneLocal_eq_retainNewest _ _ _ huf]
    exact retainNewest_nan _ _ _ _ (fun x y h => by rw [h])
  · intro s env scen now localName w hset hne hnum hb hc hp hl
    rw [uploadAndRetain_remote_eq env scen now localName w hb hc hp hl, hset,
      hnan s hne hnum]
    exact retainNewest_nan _ _ _ _ (fun x y h => by rw [h])

/-- Claim C9 witness: the retention string weekly coerces to NaN and both
sweepers delete every matching artifact at a concrete state. -/
theorem nan_retention_deletes_all_witness :
    retentionFromEnv (some "weekly") = none ∧
    pruneLocal (retentionFromEnv (some "weekly")) (fun _ => false)
      [⟨"pg-a.sql.gz", 1⟩, ⟨"keep.txt", 2⟩] =
      List.filter (fun f => !matchesExt f.name) [⟨"pg-a.sql.gz", 1⟩, ⟨"keep.txt", 2⟩] ∧
    (uploadAndRetain
      ⟨some "true", none, some "weekly", some "b", some "k", some "s", none, none, none⟩
      ⟨0, 0, 0, false, false, fun _ => false⟩ 9 "pg-request_logs-C.sql.gz"
      ⟨[], [], [⟨"request-logs-service/backups/pg-request_logs-A.sql.gz", 1⟩,
        ⟨"unrelated/key", 5⟩]⟩).1.remote =
      (putObject (⟨[], [], [⟨"request-logs-service/backups/pg-request_logs-A.sql.gz", 1⟩,
          ⟨"unrelated/key", 5⟩]⟩ : World).remote
        (keyPrefOf ⟨some "true", none, some "weekly", some "b", some "k", some "s", none,
          none, none⟩ ++ "/" ++ "pg-request_logs-C.sql.gz") 9).filter
        (fun o => !(strStarts o.key
          (keyPrefOf ⟨some "true", none, some "weekly", some "b", some "k", some "s", none,
            none, none⟩ ++ "/") && remoteMatch o.key)) :=
  ⟨nan_retention_deletes_all.1 "weekly" (by decide) rfl,
   nan_retention_deletes_all.2.1 "weekly" (fun _ => false)
     [⟨"pg-a.sql.gz", 1⟩, ⟨"keep.txt", 2⟩] (by decide) rfl (fun q => rfl),
   nan_retention_deletes_all.2.2 "weekly" _ _ 9 "pg-request_logs-C.sql.gz" _
     rfl (by decide) rfl rfl rfl rfl rfl⟩
